import Mathlib

/-!
Verification of the orbit-predictor analytic propagation core
(`src/orbit_predictor/predictors/keplerian.py` and
`src/orbit_predictor/predictors/numerical.py`) against its
natural-language specification.

Modelling conventions.

* Python floats are modelled by real numbers `ℝ`; `math.sqrt` / `np.sqrt`
  by `Real.sqrt`, `**` with a fractional exponent by `Real.rpow`,
  `math.cos` / `np.cos` by `Real.cos`, `np.arccos` by `Real.arccos`.
* The repository modules `orbit_predictor.angles` (`ta_to_M`, `M_to_ta`),
  `orbit_predictor.keplerian` (`coe2rv`) and `orbit_predictor.utils`
  (`raan_from_ltan`, `float_to_hms`) are imported collaborators whose
  bodies are not part of the two source files under verification.  The
  anomaly conversions and the epoch/RAAN helpers are therefore taken as
  explicit function parameters (universally quantified in the theorems),
  and the call to the state conversion `coe2rv` is modelled by the tuple
  of arguments handed to it (`Coe2rvArgs`): the claims under scrutiny are
  about which arguments the propagators pass to the conversion, not about
  the conversion itself.
* `datetime` epochs are modelled as real-valued timestamps in seconds;
  `(when_utc - epoch).total_seconds()` becomes real subtraction.  A
  calendar date is modelled as an integer day identifier, and
  `dt.datetime(date.year, date.month, date.day, *float_to_hms(ltan_h))`
  as an abstract parameter `mkEpoch : ℤ → ℝ → ℝ`.  The `date=None`
  default (read the current date) is an effectful read modelled by
  passing the date explicitly.
* `with np.errstate(invalid="raise")` turns the numpy invalid-operation
  cases (`arccos` outside `[-1, 1]`, `sqrt` of a negative, fractional
  power of a negative) into `FloatingPointError`, which the source maps
  to `InvalidOrbitError`; these are modelled by checked operations
  returning `Except`.
-/

namespace OrbitPredictor

/-- Gravity model record mirroring `sgp4.earth_gravity` objects: the
gravitational parameter `mu` (km³/s²), the Earth equatorial radius
`radiusearthkm` (km) and the oblateness coefficient `j2`. -/
structure GravityModel where
  mu : ℝ
  radiusearthkm : ℝ
  j2 : ℝ

/-- The `wgs84` gravity model from `sgp4.earth_gravity`, with the exact
constants that library exposes. -/
def wgs84 : GravityModel :=
  { mu := 398600.5, radiusearthkm := 6378.137, j2 := 0.00108262998905 }

/-- Module-level constant `MU_E = wgs84.mu` (both source files). -/
def MU_E : ℝ := wgs84.mu

/-- Module-level constant `R_E_KM = wgs84.radiusearthkm` (numerical.py). -/
def R_E_KM : ℝ := wgs84.radiusearthkm

/-- Module-level constant `J2 = wgs84.j2` (numerical.py). -/
def J2 : ℝ := wgs84.j2

/-- Module-level constant `OMEGA = 2 * np.pi / (86400 * 365.2421897)`
(rad/s), Earth's mean apparent solar motion rate (numerical.py). -/
noncomputable def OMEGA : ℝ := 2 * Real.pi / (86400 * 365.2421897)

/-- `math.radians`: degrees to radians. -/
noncomputable def radians (x : ℝ) : ℝ := x * Real.pi / 180

/-- `math.degrees`: radians to degrees. -/
noncomputable def degrees (x : ℝ) : ℝ := x * 180 / Real.pi

/-- The tuple of arguments a propagator passes to the external state
conversion `coe2rv(k, p, ecc, inc, raan, argp, ta)`
(`orbit_predictor.keplerian`).  The propagators return
`coe2rv(MU_E, ...)`; the claims are about these arguments, so the call is
modelled by its argument record. -/
structure Coe2rvArgs where
  k : ℝ
  p : ℝ
  ecc : ℝ
  inc : ℝ
  raan : ℝ
  argp : ℝ
  ta : ℝ

/-- The stored state of a `KeplerianPredictor` (and of its subclass
`J2Predictor`): the fields `_sma, _ecc, _inc, _raan, _argp, _ta, _epoch`
set by `KeplerianPredictor.__init__`.  Angles are in degrees, `sma` in
km, `epoch` a timestamp in seconds. -/
structure OrbitalElements where
  sma : ℝ
  ecc : ℝ
  inc : ℝ
  raan : ℝ
  argp : ℝ
  ta : ℝ
  epoch : ℝ

/-- Error raised by `KeplerianPredictor.__init__`: Python
`NotImplementedError` for non-elliptical eccentricity. -/
inductive ConstructionError where
  | notImplementedError
deriving DecidableEq

/-- `KeplerianPredictor.__init__(sma, ecc, inc, raan, argp, ta, epoch)`:
raises `NotImplementedError` when `ecc >= 1.0`, otherwise stores the
seven fields unchanged.  No other validation is performed by the
source. -/
noncomputable def KeplerianPredictor.init (sma ecc inc raan argp ta epoch : ℝ) :
    Except ConstructionError OrbitalElements :=
  if 1 ≤ ecc then
    .error .notImplementedError
  else
    .ok ⟨sma, ecc, inc, raan, argp, ta, epoch⟩

/-- `kepler(argp, delta_t_sec, ecc, inc, p, raan, sma, ta)` from
keplerian.py: unperturbed two-body propagation.  `ta_to_M` and `M_to_ta`
are the imported anomaly conversions (parameters here); the result is
the argument tuple handed to `coe2rv`. -/
noncomputable def kepler (ta_to_M M_to_ta : ℝ → ℝ → ℝ)
    (argp delta_t_sec ecc inc p raan sma ta : ℝ) : Coe2rvArgs :=
  let M_0 := ta_to_M ta ecc
  let n := Real.sqrt (wgs84.mu / sma ^ 3)
  let M := M_0 + n * delta_t_sec
  let ta2 := M_to_ta M ecc
  ⟨MU_E, p, ecc, inc, raan, argp, ta2⟩

/-- `pkepler(argp, delta_t_sec, ecc, inc, p, raan, sma, ta)` from
numerical.py: perturbed Kepler problem with only the secular J2 drift
(Vallado 3rd edition, algorithm 64).  The result is the argument tuple
handed to `coe2rv`. -/
noncomputable def pkepler (ta_to_M M_to_ta : ℝ → ℝ → ℝ)
    (argp delta_t_sec ecc inc p raan sma ta : ℝ) : Coe2rvArgs :=
  let n := Real.sqrt (MU_E / sma ^ 3)
  let M_0 := ta_to_M ta ecc
  let delta_raan := -(3 * n * R_E_KM ^ 2 * J2) / (2 * p ^ 2) *
    Real.cos inc * delta_t_sec
  let raan2 := raan + delta_raan
  let delta_argp := (3 * n * R_E_KM ^ 2 * J2) / (4 * p ^ 2) *
    (4 - 5 * Real.sin inc ^ 2) * delta_t_sec
  let argp2 := argp + delta_argp
  let M0_dot := (3 * n * R_E_KM ^ 2 * J2) / (4 * p ^ 2) *
    (2 - 3 * Real.sin inc ^ 2) * Real.sqrt (1 - ecc ^ 2)
  let M_dot := n + M0_dot
  let M := M_0 + M_dot * delta_t_sec
  let ta2 := M_to_ta M ecc
  ⟨MU_E, p, ecc, inc, raan2, argp2, ta2⟩

/-- `KeplerianPredictor._propagate_eci(when_utc)`: reads the stored
elements, converts the angles to radians, computes the semi-latus rectum
and the signed elapsed seconds, and calls `kepler`.  The method assigns
to no attribute of `self`; the embedding threads the receiver explicitly
and returns it alongside the `coe2rv` call. -/
noncomputable def KeplerianPredictor.propagate_eci (ta_to_M M_to_ta : ℝ → ℝ → ℝ)
    (self : OrbitalElements) (when_utc : ℝ) : Coe2rvArgs × OrbitalElements :=
  let sma := self.sma
  let ecc := self.ecc
  let p := sma * (1 - ecc ^ 2)
  let inc := radians self.inc
  let raan := radians self.raan
  let argp := radians self.argp
  let ta := radians self.ta
  let delta_t_sec := when_utc - self.epoch
  (kepler ta_to_M M_to_ta argp delta_t_sec ecc inc p raan sma ta, self)

/-- `J2Predictor._propagate_eci(when_utc)`: identical to the Keplerian
method except that it calls `pkepler`.  It assigns to no attribute of
`self`. -/
noncomputable def J2Predictor.propagate_eci (ta_to_M M_to_ta : ℝ → ℝ → ℝ)
    (self : OrbitalElements) (when_utc : ℝ) : Coe2rvArgs × OrbitalElements :=
  let sma := self.sma
  let ecc := self.ecc
  let p := sma * (1 - ecc ^ 2)
  let inc := radians self.inc
  let raan := radians self.raan
  let argp := radians self.argp
  let ta := radians self.ta
  let delta_t_sec := when_utc - self.epoch
  (pkepler ta_to_M M_to_ta argp delta_t_sec ecc inc p raan sma ta, self)

/-- Modelled from the spec: the explicit-`GravityModel` variant of
`kepler` that the data-model section prescribes, in which μ is read from
a per-call gravity model argument instead of the module-level
`MU_E = wgs84.mu`.  Used to compare against the source function for the
substitutability claim. -/
noncomputable def keplerGM (g : GravityModel) (ta_to_M M_to_ta : ℝ → ℝ → ℝ)
    (argp delta_t_sec ecc inc p raan sma ta : ℝ) : Coe2rvArgs :=
  let M_0 := ta_to_M ta ecc
  let n := Real.sqrt (g.mu / sma ^ 3)
  let M := M_0 + n * delta_t_sec
  let ta2 := M_to_ta M ecc
  ⟨g.mu, p, ecc, inc, raan, argp, ta2⟩

/-- Modelled from the spec: the explicit-`GravityModel` variant of
`pkepler`, reading μ, the Earth radius and J2 from a per-call gravity
model argument instead of the module-level constants. -/
noncomputable def pkeplerGM (g : GravityModel) (ta_to_M M_to_ta : ℝ → ℝ → ℝ)
    (argp delta_t_sec ecc inc p raan sma ta : ℝ) : Coe2rvArgs :=
  let n := Real.sqrt (g.mu / sma ^ 3)
  let M_0 := ta_to_M ta ecc
  let delta_raan := -(3 * n * g.radiusearthkm ^ 2 * g.j2) / (2 * p ^ 2) *
    Real.cos inc * delta_t_sec
  let raan2 := raan + delta_raan
  let delta_argp := (3 * n * g.radiusearthkm ^ 2 * g.j2) / (4 * p ^ 2) *
    (4 - 5 * Real.sin inc ^ 2) * delta_t_sec
  let argp2 := argp + delta_argp
  let M0_dot := (3 * n * g.radiusearthkm ^ 2 * g.j2) / (4 * p ^ 2) *
    (2 - 3 * Real.sin inc ^ 2) * Real.sqrt (1 - ecc ^ 2)
  let M_dot := n + M0_dot
  let M := M_0 + M_dot * delta_t_sec
  let ta2 := M_to_ta M ecc
  ⟨g.mu, p, ecc, inc, raan2, argp2, ta2⟩

/-- Exceptions that can escape `J2Predictor.sun_synchronous`:
`ValueError` for the wrong number of supplied parameters,
`InvalidOrbitError` for a floating-point domain violation inside the
`np.errstate(invalid="raise")` block, and the constructor's
`NotImplementedError`. -/
inductive SunSyncError where
  | invalidParameters
  | invalidOrbit
  | notImplementedError
deriving DecidableEq

/-- `np.arccos` under `np.errstate(invalid="raise")`: an argument outside
`[-1, 1]` raises `FloatingPointError`, which `sun_synchronous` converts
to `InvalidOrbitError`. -/
noncomputable def arccosChecked (x : ℝ) : Except SunSyncError ℝ :=
  if x < -1 ∨ 1 < x then .error .invalidOrbit else .ok (Real.arccos x)

/-- `np.sqrt` under `np.errstate(invalid="raise")`: a negative radicand
raises `FloatingPointError`, converted to `InvalidOrbitError`. -/
noncomputable def sqrtChecked (x : ℝ) : Except SunSyncError ℝ :=
  if x < 0 then .error .invalidOrbit else .ok (Real.sqrt x)

/-- Numpy `x ** y` for fractional `y` under
`np.errstate(invalid="raise")`: a negative base raises
`FloatingPointError`, converted to `InvalidOrbitError`. -/
noncomputable def powChecked (x y : ℝ) : Except SunSyncError ℝ :=
  if x < 0 then .error .invalidOrbit else .ok (x ^ y)

/-- Argument of the closed-form `np.arccos` in the altitude+eccentricity
branch of `sun_synchronous`:
`(-2 * sma**(7/2) * OMEGA * (1 - ecc**2)**2) / (3 * R_E_KM**2 * J2 * np.sqrt(MU_E))`
with `sma = R_E_KM + alt_km`. -/
noncomputable def inclArg (a e : ℝ) : ℝ :=
  (-2 * (R_E_KM + a) ^ ((7 : ℝ) / 2) * OMEGA * (1 - e ^ 2) ^ 2) /
    (3 * R_E_KM ^ 2 * J2 * Real.sqrt MU_E)

/-- Argument of the inner `np.sqrt` in the altitude+inclination branch of
`sun_synchronous`:
`(-3 * R_E_KM**2 * J2 * np.sqrt(MU_E) * np.cos(radians(inc_deg))) / (2 * OMEGA * sma**(7/2))`
with `sma = R_E_KM + alt_km`. -/
noncomputable def eccInnerArg (a i : ℝ) : ℝ :=
  (-3 * R_E_KM ^ 2 * J2 * Real.sqrt MU_E * Real.cos (radians i)) /
    (2 * OMEGA * (R_E_KM + a) ^ ((7 : ℝ) / 2))

/-- Base of the `** (2/7)` power in the eccentricity+inclination branch
of `sun_synchronous`:
`-np.cos(radians(inc_deg)) * (3 * R_E_KM**2 * J2 * np.sqrt(MU_E)) / (2 * OMEGA * (1 - ecc**2)**2)`. -/
noncomputable def smaBase (e i : ℝ) : ℝ :=
  -Real.cos (radians i) * (3 * R_E_KM ^ 2 * J2 * Real.sqrt MU_E) /
    (2 * OMEGA * (1 - e ^ 2) ^ 2)

/-- `J2Predictor.sun_synchronous(alt_km, ecc, inc_deg, ltan_h, date,
ta_deg)`.  `mkEpoch` models
`dt.datetime(date.year, date.month, date.day, *float_to_hms(ltan_h))`
and `raan_from_ltan` models `utils.raan_from_ltan(epoch, ltan_h)`, both
imported collaborators.  The branch structure mirrors the source
if/elif chain: altitude+eccentricity solves inclination by arccos,
altitude+inclination solves eccentricity by nested square roots,
eccentricity+inclination solves the semi-major axis by a 2/7 power, and
any other combination of supplied parameters raises `ValueError`.  The
result is built by `KeplerianPredictor.init` with `argp = 0`. -/
noncomputable def J2Predictor.sun_synchronous
    (mkEpoch : ℤ → ℝ → ℝ) (raan_from_ltan : ℝ → ℝ → ℝ)
    (alt_km ecc inc_deg : Option ℝ) (ltan_h : ℝ) (date : ℤ) (ta_deg : ℝ) :
    Except SunSyncError OrbitalElements :=
  let finish : ℝ → ℝ → ℝ → Except SunSyncError OrbitalElements :=
    fun sma e i =>
      let epoch := mkEpoch date ltan_h
      let raan := raan_from_ltan epoch ltan_h
      match KeplerianPredictor.init sma e i raan 0 ta_deg epoch with
      | .error _ => .error .notImplementedError
      | .ok elems => .ok elems
  match alt_km, ecc, inc_deg with
  | some a, some e, _ =>
      (arccosChecked (inclArg a e)).bind
        (fun i => finish (R_E_KM + a) e (degrees i))
  | some a, none, some i =>
      (sqrtChecked (eccInnerArg a i)).bind
        (fun s1 => (sqrtChecked (1 - s1)).bind
          (fun e => finish (R_E_KM + a) e i))
  | none, some e, some i =>
      (powChecked (smaBase e i) ((2 : ℝ) / 7)).bind
        (fun sma => finish sma e i)
  | _, _, _ => .error .invalidParameters

/-- `sun_sync_plane_constellation(num_satellites, alt_km, ecc, inc_deg,
ltan_h, date)`: yields, for each `ta_deg` in
`np.linspace(0, 360, num_satellites, endpoint=False)` (that is,
`k * 360 / num_satellites` for `k = 0, ..., num_satellites - 1`), the
predictor `J2Predictor.sun_synchronous(..., ta_deg=ta_deg)`.  The lazy
generator is modelled as the list of its yields. -/
noncomputable def sun_sync_plane_constellation (num_satellites : ℕ)
    (mkEpoch : ℤ → ℝ → ℝ) (raan_from_ltan : ℝ → ℝ → ℝ)
    (alt_km ecc inc_deg : Option ℝ) (ltan_h : ℝ) (date : ℤ) :
    List (Except SunSyncError OrbitalElements) :=
  (List.range num_satellites).map
    (fun k : ℕ => J2Predictor.sun_synchronous mkEpoch raan_from_ltan
      alt_km ecc inc_deg ltan_h date (0 + (k : ℝ) * (360 / (num_satellites : ℝ))))

/-- Number of supplied parameters among altitude, eccentricity and
inclination in a `sun_synchronous` call. -/
def suppliedCount (alt_km ecc inc_deg : Option ℝ) : ℕ :=
  (if alt_km.isSome then 1 else 0) + (if ecc.isSome then 1 else 0) +
    (if inc_deg.isSome then 1 else 0)

/-- Nodal regression rate −(3·n·R_E²·J2)/(2·p²)·cos(inc) of the orbit
described by stored elements (angles stored in degrees), with
`n = sqrt(μ/sma³)` and `p = sma·(1−ecc²)`: the quantity the
Sun-synchronism design equates to `OMEGA`. -/
noncomputable def nodalRegressionRate (el : OrbitalElements) : ℝ :=
  -(3 * Real.sqrt (MU_E / el.sma ^ 3) * R_E_KM ^ 2 * J2) /
    (2 * (el.sma * (1 - el.ecc ^ 2)) ^ 2) * Real.cos (radians el.inc)

/-- Sun-synchronous solver domain violation: the argument of the closed
form arccos or of one of the square roots (or the base of the fractional
power) executed by the branch selected by the supplied parameters falls
outside its valid domain. -/
noncomputable def domainViolation (alt_km ecc inc_deg : Option ℝ) : Prop :=
  match alt_km, ecc, inc_deg with
  | some a, some e, _ => inclArg a e < -1 ∨ 1 < inclArg a e
  | some a, none, some i =>
      eccInnerArg a i < 0 ∨ 1 - Real.sqrt (eccInnerArg a i) < 0
  | none, some e, some i => smaBase e i < 0
  | _, _, _ => False

/-- C4: for every Keplerian predictor and every target epoch (later or
earlier than the reference epoch), `_propagate_eci` computes the mean
motion `n = sqrt(μ/sma³)`, converts the stored true anomaly to an
initial mean anomaly `M₀ = ta_to_M(ta, ecc)`, advances it as
`M = M₀ + n·Δt` with signed `Δt` in seconds, recovers the new true
anomaly `M_to_ta(M, ecc)`, and hands the state conversion `coe2rv` the
semi-latus rectum `sma·(1−ecc²)` together with `ecc, inc, raan, argp`
fixed at their stored values (converted to radians). -/
theorem claim_C4_keplerian_propagation (ta_to_M M_to_ta : ℝ → ℝ → ℝ)
    (el : OrbitalElements) (when_utc : ℝ) :
    KeplerianPredictor.propagate_eci ta_to_M M_to_ta el when_utc =
      (⟨MU_E, el.sma * (1 - el.ecc ^ 2), el.ecc, radians el.inc, radians el.raan,
        radians el.argp,
        M_to_ta (ta_to_M (radians el.ta) el.ecc +
          Real.sqrt (MU_E / el.sma ^ 3) * (when_utc - el.epoch)) el.ecc⟩, el) :=
  rfl

/-- C1: for every J2 predictor and every target epoch, `_propagate_eci`
applies secular drift linear in the elapsed time `Δt` to exactly the
three angles — RAAN advanced by `−(3·n·R_E²·J2)/(2·p²)·cos(inc)·Δt`,
argument of perigee by `(3·n·R_E²·J2)/(4·p²)·(4−5·sin²(inc))·Δt`, mean
anomaly by `(n + M₀_dot)·Δt` with
`M₀_dot = (3·n·R_E²·J2)/(4·p²)·(2−3·sin²(inc))·sqrt(1−ecc²)` — where
`n = sqrt(μ/sma³)` and `p = sma·(1−ecc²)`, while `sma`, `ecc` and `inc`
are passed through unchanged to the state conversion (the conversion
receives `p` computed from the unchanged `sma` and `ecc`, and the
unchanged `inc`). -/
theorem claim_C1_j2_secular_drift (ta_to_M M_to_ta : ℝ → ℝ → ℝ)
    (el : OrbitalElements) (when_utc : ℝ) :
    J2Predictor.propagate_eci ta_to_M M_to_ta el when_utc =
      (⟨MU_E, el.sma * (1 - el.ecc ^ 2), el.ecc, radians el.inc,
        radians el.raan +
          -(3 * Real.sqrt (MU_E / el.sma ^ 3) * R_E_KM ^ 2 * J2) /
            (2 * (el.sma * (1 - el.ecc ^ 2)) ^ 2) *
            Real.cos (radians el.inc) * (when_utc - el.epoch),
        radians el.argp +
          (3 * Real.sqrt (MU_E / el.sma ^ 3) * R_E_KM ^ 2 * J2) /
            (4 * (el.sma * (1 - el.ecc ^ 2)) ^ 2) *
            (4 - 5 * Real.sin (radians el.inc) ^ 2) * (when_utc - el.epoch),
        M_to_ta (ta_to_M (radians el.ta) el.ecc +
          (Real.sqrt (MU_E / el.sma ^ 3) +
            (3 * Real.sqrt (MU_E / el.sma ^ 3) * R_E_KM ^ 2 * J2) /
              (4 * (el.sma * (1 - el.ecc ^ 2)) ^ 2) *
              (2 - 3 * Real.sin (radians el.inc) ^ 2) *
              Real.sqrt (1 - el.ecc ^ 2)) * (when_utc - el.epoch)) el.ecc⟩, el) :=
  rfl

/-- C9: for every Keplerian or J2 predictor and every target epoch,
`_propagate_eci` leaves every stored orbital element of the predictor
unchanged — propagation produces a new `coe2rv` call and never mutates
the elements the predictor was constructed with. -/
theorem claim_C9_propagation_immutable (ta_to_M M_to_ta : ℝ → ℝ → ℝ)
    (el : OrbitalElements) (when_utc : ℝ) :
    (KeplerianPredictor.propagate_eci ta_to_M M_to_ta el when_utc).2 = el ∧
      (J2Predictor.propagate_eci ta_to_M M_to_ta el when_utc).2 = el :=
  ⟨rfl, rfl⟩

/-- C6 counterexample: the claim says construction fails exactly when
the supplied elements violate `sma > 0` and `0 ≤ ecc < 1`, but
`KeplerianPredictor.__init__` only checks `ecc >= 1.0`: constructing
with `sma = -7000` and `ecc = -0.5` (both constraints violated)
succeeds and returns a predictor. -/
theorem claim_C6_counterexample :
    KeplerianPredictor.init (-7000) (-0.5) 45 0 0 0 0 =
        Except.ok ⟨-7000, -0.5, 45, 0, 0, 0, 0⟩ ∧
      ¬ (0 < (-7000 : ℝ)) ∧ ¬ (0 ≤ (-0.5 : ℝ)) := by
  refine ⟨?_, by norm_num, by norm_num⟩
  unfold KeplerianPredictor.init
  rw [if_neg (by norm_num)]

/-- C6 amended: constructing a Keplerian or J2 predictor fails with the
construction-time error exactly when `ecc ≥ 1` (so in particular
`ecc = 1.0` and `ecc = 1.5` raise and never return a predictor, and any
successful construction has `ecc < 1`); the constraints `sma > 0` and
`ecc ≥ 0` are not checked at construction. -/
theorem claim_C6_construction_check (sma ecc inc raan argp ta epoch : ℝ) :
    KeplerianPredictor.init sma ecc inc raan argp ta epoch =
        Except.error ConstructionError.notImplementedError ↔ 1 ≤ ecc := by
  unfold KeplerianPredictor.init
  by_cases h : 1 ≤ ecc <;> simp [h]

/-- C8 counterexample: the claim says every propagation function
receives the gravity model as an explicit argument so that its result is
determined by that argument; but the source `kepler` reads the
module-level `wgs84` constants, so at the alternate gravity model with
`μ = 1` its result differs from the explicit-argument variant the spec
prescribes (the μ handed to `coe2rv` is `398600.5`, not `1`). -/
theorem claim_C8_counterexample :
    kepler (fun _ _ => 0) (fun _ _ => 0) 0 1 0 0 1 0 1 0 ≠
      keplerGM ⟨1, 6378.137, 0.00108262998905⟩
        (fun _ _ => 0) (fun _ _ => 0) 0 1 0 0 1 0 1 0 := by
  intro h
  have hk := congrArg Coe2rvArgs.k h
  simp only [kepler, keplerGM, MU_E, wgs84] at hk
  norm_num at hk

/-- C8 amended: the propagation functions do not take the gravity model
as an argument; they read μ, the Earth radius and J2 from module-level
constants bound to the `wgs84` model at import, so every call behaves
exactly like the explicit-`GravityModel` variant instantiated at the
fixed `wgs84` value, and alternate gravity models are not substitutable
per call. -/
theorem claim_C8_module_level_gravity (ta_to_M M_to_ta : ℝ → ℝ → ℝ)
    (argp delta_t_sec ecc inc p raan sma ta : ℝ) :
    kepler ta_to_M M_to_ta argp delta_t_sec ecc inc p raan sma ta =
        keplerGM wgs84 ta_to_M M_to_ta argp delta_t_sec ecc inc p raan sma ta ∧
      pkepler ta_to_M M_to_ta argp delta_t_sec ecc inc p raan sma ta =
        pkeplerGM wgs84 ta_to_M M_to_ta argp delta_t_sec ecc inc p raan sma ta :=
  ⟨rfl, rfl⟩

theorem sun_synchronous_alt_ecc (mkEpoch : ℤ → ℝ → ℝ) (rl : ℝ → ℝ → ℝ)
    (a e : ℝ) (inc_deg : Option ℝ) (ltan_h : ℝ) (date : ℤ) (ta_deg : ℝ) :
    J2Predictor.sun_synchronous mkEpoch rl (some a) (some e) inc_deg ltan_h date ta_deg =
      if inclArg a e < -1 ∨ 1 < inclArg a e then .error .invalidOrbit
      else if 1 ≤ e then .error .notImplementedError
      else .ok ⟨R_E_KM + a, e, degrees (Real.arccos (inclArg a e)),
        rl (mkEpoch date ltan_h) ltan_h, 0, ta_deg, mkEpoch date ltan_h⟩ := by
  unfold J2Predictor.sun_synchronous arccosChecked KeplerianPredictor.init
  by_cases hc : inclArg a e < -1 ∨ 1 < inclArg a e <;>
    by_cases he : 1 ≤ e <;>
    simp [hc, he, Except.bind]

theorem sun_synchronous_alt_inc (mkEpoch : ℤ → ℝ → ℝ) (rl : ℝ → ℝ → ℝ)
    (a i ltan_h : ℝ) (date : ℤ) (ta_deg : ℝ) :
    J2Predictor.sun_synchronous mkEpoch rl (some a) none (some i) ltan_h date ta_deg =
      if eccInnerArg a i < 0 then .error .invalidOrbit
      else if 1 - Real.sqrt (eccInnerArg a i) < 0 then .error .invalidOrbit
      else if 1 ≤ Real.sqrt (1 - Real.sqrt (eccInnerArg a i)) then
        .error .notImplementedError
      else .ok ⟨R_E_KM + a, Real.sqrt (1 - Real.sqrt (eccInnerArg a i)), i,
        rl (mkEpoch date ltan_h) ltan_h, 0, ta_deg, mkEpoch date ltan_h⟩ := by
  unfold J2Predictor.sun_synchronous sqrtChecked KeplerianPredictor.init
  by_cases h1 : eccInnerArg a i < 0
  · simp [h1, Except.bind]
  · by_cases h2 : 1 - Real.sqrt (eccInnerArg a i) < 0 <;>
      by_cases he : 1 ≤ Real.sqrt (1 - Real.sqrt (eccInnerArg a i)) <;>
      simp [h1, h2, he, Except.bind]

theorem sun_synchronous_ecc_inc (mkEpoch : ℤ → ℝ → ℝ) (rl : ℝ → ℝ → ℝ)
    (e i ltan_h : ℝ) (date : ℤ) (ta_deg : ℝ) :
    J2Predictor.sun_synchronous mkEpoch rl none (some e) (some i) ltan_h date ta_deg =
      if smaBase e i < 0 then .error .invalidOrbit
      else if 1 ≤ e then .error .notImplementedError
      else .ok ⟨smaBase e i ^ ((2 : ℝ) / 7), e, i,
        rl (mkEpoch date ltan_h) ltan_h, 0, ta_deg, mkEpoch date ltan_h⟩ := by
  unfold J2Predictor.sun_synchronous powChecked KeplerianPredictor.init
  by_cases hb : smaBase e i < 0 <;>
    by_cases he : 1 ≤ e <;>
    simp [hb, he, Except.bind]

/-- C2 counterexample: the claim says every call with three of
{altitude, eccentricity, inclination} supplied raises the
invalid-parameters error, but the source dispatches on
`alt_km is not None and ecc is not None` first, so a call supplying all
three (here `alt_km=600, ecc=0, inc_deg=97`) enters the
altitude+eccentricity branch and does not raise `ValueError`. -/
theorem claim_C2_counterexample :
    J2Predictor.sun_synchronous (fun _ _ => 0) (fun _ _ => 0)
        (some 600) (some 0) (some 97) 12 0 0 ≠
      Except.error SunSyncError.invalidParameters := by
  rw [sun_synchronous_alt_ecc]
  split_ifs <;> simp

/-- C2 amended: `sun_synchronous` raises the invalid-parameters
`ValueError` exactly when at most one of {altitude, eccentricity,
inclination} is supplied; a call with all three supplied is treated like
altitude+eccentricity (the supplied inclination is ignored and
re-solved) and does not raise it, and a call with exactly two supplied
never raises it (it returns a predictor or one of the other errors). -/
theorem claim_C2_arity (mkEpoch : ℤ → ℝ → ℝ) (rl : ℝ → ℝ → ℝ)
    (alt_km ecc inc_deg : Option ℝ) (ltan_h : ℝ) (date : ℤ) (ta_deg : ℝ) :
    J2Predictor.sun_synchronous mkEpoch rl alt_km ecc inc_deg ltan_h date ta_deg =
        Except.error SunSyncError.invalidParameters ↔
      suppliedCount alt_km ecc inc_deg ≤ 1 := by
  rcases alt_km with _ | a <;> rcases ecc with _ | e <;> rcases inc_deg with _ | i
  · simp [J2Predictor.sun_synchronous, suppliedCount]
  · simp [J2Predictor.sun_synchronous, suppliedCount]
  · simp [J2Predictor.sun_synchronous, suppliedCount]
  · rw [sun_synchronous_ecc_inc]
    simp only [suppliedCount, Option.isSome_none, Option.isSome_some]
    norm_num
    split_ifs <;> simp
  · simp [J2Predictor.sun_synchronous, suppliedCount]
  · rw [sun_synchronous_alt_inc]
    simp only [suppliedCount, Option.isSome_none, Option.isSome_some]
    norm_num
    split_ifs <;> simp
  · rw [sun_synchronous_alt_ecc]
    simp only [suppliedCount, Option.isSome_none, Option.isSome_some]
    norm_num
    split_ifs <;> simp
  · rw [sun_synchronous_alt_ecc]
    simp only [suppliedCount, Option.isSome_none, Option.isSome_some]
    norm_num
    split_ifs <;> simp

/-- C3: for every call to the Sun-synchronous solver whose closed-form
arccos or square-root argument (or fractional-power base) falls outside
its valid domain in the branch selected by the supplied parameters, the
solver returns `InvalidOrbitError` — it never returns a predictor for
such an input. -/
theorem claim_C3_invalid_orbit (mkEpoch : ℤ → ℝ → ℝ) (rl : ℝ → ℝ → ℝ)
    (alt_km ecc inc_deg : Option ℝ) (ltan_h : ℝ) (date : ℤ) (ta_deg : ℝ)
    (h : domainViolation alt_km ecc inc_deg) :
    J2Predictor.sun_synchronous mkEpoch rl alt_km ecc inc_deg ltan_h date ta_deg =
      Except.error SunSyncError.invalidOrbit := by
  rcases alt_km with _ | a <;> rcases ecc with _ | e <;> rcases inc_deg with _ | i <;>
    simp only [domainViolation] at h
  · rw [sun_synchronous_ecc_inc, if_pos h]
  · rw [sun_synchronous_alt_inc]
    rcases h with h1 | h2
    · rw [if_pos h1]
    · by_cases h1 : eccInnerArg a i < 0
      · rw [if_pos h1]
      · rw [if_neg h1, if_pos h2]
  · rw [sun_synchronous_alt_ecc, if_pos h]
  · rw [sun_synchronous_alt_ecc, if_pos h]

/-- C10: every predictor returned by the Sun-synchronous solver has its
argument of perigee set to exactly 0, regardless of the supplied
altitude, eccentricity, inclination, LTAN, date, or true-anomaly
offset: every success path ends in
`cls(sma, ecc, inc_deg, raan, 0, ta_deg, epoch)`. -/
theorem claim_C10_argp_zero (mkEpoch : ℤ → ℝ → ℝ) (rl : ℝ → ℝ → ℝ)
    (alt_km ecc inc_deg : Option ℝ) (ltan_h : ℝ) (date : ℤ) (ta_deg : ℝ)
    (pred : OrbitalElements)
    (h : J2Predictor.sun_synchronous mkEpoch rl alt_km ecc inc_deg ltan_h date ta_deg =
      Except.ok pred) :
    pred.argp = 0 := by
  rcases alt_km with _ | a <;> rcases ecc with _ | e <;> rcases inc_deg with _ | i
  · exact Except.noConfusion h
  · exact Except.noConfusion h
  · exact Except.noConfusion h
  · rw [sun_synchronous_ecc_inc] at h
    split_ifs at h
    injection h with h2
    rw [← h2]
  · exact Except.noConfusion h
  · rw [sun_synchronous_alt_inc] at h
    split_ifs at h
    injection h with h2
    rw [← h2]
  · rw [sun_synchronous_alt_ecc] at h
    split_ifs at h
    injection h with h2
    rw [← h2]
  · rw [sun_synchronous_alt_ecc] at h
    split_ifs at h
    injection h with h2
    rw [← h2]

theorem MU_E_pos : 0 < MU_E := by norm_num [MU_E, wgs84]

theorem sqrt_MU_E_pos : 0 < Real.sqrt MU_E := Real.sqrt_pos.mpr MU_E_pos

theorem R_E_KM_pos : 0 < R_E_KM := by norm_num [R_E_KM, wgs84]

theorem J2_pos : 0 < J2 := by norm_num [J2, wgs84]

theorem OMEGA_pos : 0 < OMEGA := by
  unfold OMEGA
  positivity

theorem radians_degrees (y : ℝ) : radians (degrees y) = y := by
  unfold radians degrees
  field_simp [Real.pi_ne_zero]

theorem sqrt_mu_div_cube {s : ℝ} (hs : 0 < s) :
    Real.sqrt (MU_E / s ^ 3) = Real.sqrt MU_E / (s * Real.sqrt s) := by
  rw [Real.sqrt_div MU_E_pos.le, show s ^ 3 = s ^ 2 * s by ring,
    Real.sqrt_mul (sq_nonneg s), Real.sqrt_sq hs.le]

theorem rpow_seven_half {s : ℝ} (hs : 0 ≤ s) :
    s ^ ((7 : ℝ) / 2) = s ^ 3 * Real.sqrt s := by
  rcases eq_or_lt_of_le hs with h | h
  · rw [← h, Real.zero_rpow (by norm_num), Real.sqrt_zero]
    ring
  · rw [show (7 : ℝ) / 2 = ((3 : ℕ) : ℝ) + 1 / 2 by norm_num, Real.rpow_add h,
      Real.rpow_natCast, Real.sqrt_eq_rpow]

theorem rpow_two_sevenths_cube_sqrt {B : ℝ} (hB : 0 < B) :
    (B ^ ((2 : ℝ) / 7)) ^ 3 * Real.sqrt (B ^ ((2 : ℝ) / 7)) = B := by
  have h1 : (B ^ ((2 : ℝ) / 7)) ^ (3 : ℕ) = B ^ ((2 : ℝ) / 7 * 3) := by
    rw [← Real.rpow_natCast (B ^ ((2 : ℝ) / 7)) 3, ← Real.rpow_mul hB.le]
    norm_num
  have h2 : Real.sqrt (B ^ ((2 : ℝ) / 7)) = B ^ ((2 : ℝ) / 7 * (1 / 2)) := by
    rw [Real.sqrt_eq_rpow, ← Real.rpow_mul hB.le]
  rw [h1, h2, ← Real.rpow_add hB]
  norm_num

theorem rate_formula (s e c : ℝ) (hs : 0 < s) (he : (1 : ℝ) - e ^ 2 ≠ 0) :
    -(3 * Real.sqrt (MU_E / s ^ 3) * R_E_KM ^ 2 * J2) /
        (2 * (s * (1 - e ^ 2)) ^ 2) * c =
      -(3 * Real.sqrt MU_E * R_E_KM ^ 2 * J2 * c) /
        (2 * (s ^ 3 * Real.sqrt s) * (1 - e ^ 2) ^ 2) := by
  rw [sqrt_mu_div_cube hs]
  have hsne : s ≠ 0 := ne_of_gt hs
  have hss : Real.sqrt s ≠ 0 := ne_of_gt (Real.sqrt_pos.mpr hs)
  field_simp
  ring_nf
  simp

theorem rate_branch1 (a e r ap taa ep : ℝ) (hs : 0 < R_E_KM + a) (he : e ^ 2 < 1)
    (h1 : -1 ≤ inclArg a e) (h2 : inclArg a e ≤ 1) :
    nodalRegressionRate
      ⟨R_E_KM + a, e, degrees (Real.arccos (inclArg a e)), r, ap, taa, ep⟩ = OMEGA := by
  have hne : (1 : ℝ) - e ^ 2 ≠ 0 := ne_of_gt (by linarith)
  simp only [nodalRegressionRate]
  rw [radians_degrees, Real.cos_arccos h1 h2, rate_formula _ _ _ hs hne]
  unfold inclArg
  rw [rpow_seven_half hs.le]
  have hsne : R_E_KM + a ≠ 0 := ne_of_gt hs
  have hss : Real.sqrt (R_E_KM + a) ≠ 0 := ne_of_gt (Real.sqrt_pos.mpr hs)
  have hmu : Real.sqrt MU_E ≠ 0 := ne_of_gt sqrt_MU_E_pos
  have hR : R_E_KM ≠ 0 := ne_of_gt R_E_KM_pos
  have hJ : J2 ≠ 0 := ne_of_gt J2_pos
  field_simp
  ring

theorem rate_branch2 (a i r ap taa ep : ℝ) (hs : 0 < R_E_KM + a)
    (h1 : 0 ≤ eccInnerArg a i) (h2 : 0 ≤ 1 - Real.sqrt (eccInnerArg a i))
    (hA : 0 < eccInnerArg a i) :
    nodalRegressionRate
      ⟨R_E_KM + a, Real.sqrt (1 - Real.sqrt (eccInnerArg a i)), i, r, ap, taa, ep⟩ =
      OMEGA := by
  have hc : Real.cos (radians i) ≠ 0 := by
    intro h0
    have : eccInnerArg a i = 0 := by
      unfold eccInnerArg
      rw [h0]
      ring
    rw [this] at hA
    exact lt_irrefl 0 hA
  simp only [nodalRegressionRate]
  rw [Real.sq_sqrt h2, show (1 : ℝ) - (1 - Real.sqrt (eccInnerArg a i)) =
    Real.sqrt (eccInnerArg a i) by ring]
  rw [sqrt_mu_div_cube hs, mul_pow, Real.sq_sqrt h1]
  · unfold eccInnerArg
    rw [rpow_seven_half hs.le]
    have hsne : R_E_KM + a ≠ 0 := ne_of_gt hs
    have hss : Real.sqrt (R_E_KM + a) ≠ 0 := ne_of_gt (Real.sqrt_pos.mpr hs)
    have hmu : Real.sqrt MU_E ≠ 0 := ne_of_gt sqrt_MU_E_pos
    have hR : R_E_KM ≠ 0 := ne_of_gt R_E_KM_pos
    have hJ : J2 ≠ 0 := ne_of_gt J2_pos
    have hO : OMEGA ≠ 0 := ne_of_gt OMEGA_pos
    field_simp
    ring

theorem rate_branch3 (e i r ap taa ep : ℝ) (he : e ^ 2 < 1) (hB : 0 < smaBase e i) :
    nodalRegressionRate ⟨smaBase e i ^ ((2 : ℝ) / 7), e, i, r, ap, taa, ep⟩ =
      OMEGA := by
  have hne : (1 : ℝ) - e ^ 2 ≠ 0 := ne_of_gt (by linarith)
  have hs : 0 < smaBase e i ^ ((2 : ℝ) / 7) := Real.rpow_pos_of_pos hB _
  have hc : Real.cos (radians i) ≠ 0 := by
    intro h0
    have : smaBase e i = 0 := by
      unfold smaBase
      rw [h0]
      ring
    rw [this] at hB
    exact lt_irrefl 0 hB
  simp only [nodalRegressionRate]
  rw [rate_formula _ _ _ hs hne, rpow_two_sevenths_cube_sqrt hB]
  unfold smaBase
  have hmu : Real.sqrt MU_E ≠ 0 := ne_of_gt sqrt_MU_E_pos
  have hR : R_E_KM ≠ 0 := ne_of_gt R_E_KM_pos
  have hJ : J2 ≠ 0 := ne_of_gt J2_pos
  have hO : OMEGA ≠ 0 := ne_of_gt OMEGA_pos
  field_simp
  ring

/-- C5: every predictor returned by the Sun-synchronous solver (with a
physically meaningful result: positive semi-major axis and elliptical
eccentricity, which make the rate defined) satisfies the Sun-synchronism
equation: the nodal regression rate `−(3·n·R_E²·J2)/(2·p²)·cos(inc)` of
the resulting orbit equals Earth's mean apparent solar motion rate
`OMEGA = 2π/(86400·365.2421897)` exactly, in real arithmetic. -/
theorem claim_C5_nodal_rate (mkEpoch : ℤ → ℝ → ℝ) (rl : ℝ → ℝ → ℝ)
    (alt_km ecc inc_deg : Option ℝ) (ltan_h : ℝ) (date : ℤ) (ta_deg : ℝ)
    (pred : OrbitalElements)
    (h : J2Predictor.sun_synchronous mkEpoch rl alt_km ecc inc_deg ltan_h date ta_deg =
      Except.ok pred)
    (hsma : 0 < pred.sma) (hecc : pred.ecc ^ 2 < 1) :
    nodalRegressionRate pred = OMEGA := by
  rcases alt_km with _ | a <;> rcases ecc with _ | e <;> rcases inc_deg with _ | i
  · exact Except.noConfusion h
  · exact Except.noConfusion h
  · exact Except.noConfusion h
  · rw [sun_synchronous_ecc_inc] at h
    split_ifs at h with hb he1
    injection h with h2
    subst h2
    have hs2 : 0 < smaBase e i ^ ((2 : ℝ) / 7) := hsma
    have he2 : e ^ 2 < 1 := hecc
    have hBne : smaBase e i ≠ 0 := by
      intro h0
      rw [h0, Real.zero_rpow (by norm_num)] at hs2
      exact lt_irrefl 0 hs2
    have hB : 0 < smaBase e i := lt_of_le_of_ne (not_lt.mp hb) (Ne.symm hBne)
    exact rate_branch3 e i _ _ _ _ he2 hB
  · exact Except.noConfusion h
  · rw [sun_synchronous_alt_inc] at h
    split_ifs at h with hd1 hd2 he1
    injection h with h2
    subst h2
    have hs2 : 0 < R_E_KM + a := hsma
    have he2 : Real.sqrt (1 - Real.sqrt (eccInnerArg a i)) ^ 2 < 1 := hecc
    have h1 : 0 ≤ eccInnerArg a i := not_lt.mp hd1
    have h2 : 0 ≤ 1 - Real.sqrt (eccInnerArg a i) := not_lt.mp hd2
    have hA : 0 < eccInnerArg a i := by
      rw [Real.sq_sqrt h2] at he2
      have : 0 < Real.sqrt (eccInnerArg a i) := by linarith
      exact Real.sqrt_pos.mp this
    exact rate_branch2 a i _ _ _ _ hs2 h1 h2 hA
  · rw [sun_synchronous_alt_ecc] at h
    split_ifs at h with hd he1
    injection h with h2
    subst h2
    have hs2 : 0 < R_E_KM + a := hsma
    have he2 : e ^ 2 < 1 := hecc
    push_neg at hd
    exact rate_branch1 a e _ _ _ _ hs2 he2 hd.1 hd.2
  · rw [sun_synchronous_alt_ecc] at h
    split_ifs at h with hd he1
    injection h with h2
    subst h2
    have hs2 : 0 < R_E_KM + a := hsma
    have he2 : e ^ 2 < 1 := hecc
    push_neg at hd
    exact rate_branch1 a e _ _ _ _ hs2 he2 hd.1 hd.2

theorem sun_synchronous_ta_map (mkEpoch : ℤ → ℝ → ℝ) (rl : ℝ → ℝ → ℝ)
    (alt_km ecc inc_deg : Option ℝ) (ltan_h : ℝ) (date : ℤ) (t : ℝ)
    (p0 : OrbitalElements)
    (h0 : J2Predictor.sun_synchronous mkEpoch rl alt_km ecc inc_deg ltan_h date 0 =
      Except.ok p0) :
    J2Predictor.sun_synchronous mkEpoch rl alt_km ecc inc_deg ltan_h date t =
      Except.ok { p0 with ta := t } := by
  rcases alt_km with _ | a <;> rcases ecc with _ | e <;> rcases inc_deg with _ | i
  · exact Except.noConfusion h0
  · exact Except.noConfusion h0
  · exact Except.noConfusion h0
  · rw [sun_synchronous_ecc_inc] at h0 ⊢
    split_ifs at h0 ⊢
    injection h0 with h2
    rw [← h2]
  · exact Except.noConfusion h0
  · rw [sun_synchronous_alt_inc] at h0 ⊢
    split_ifs at h0 ⊢
    injection h0 with h2
    rw [← h2]
  · rw [sun_synchronous_alt_ecc] at h0 ⊢
    split_ifs at h0 ⊢
    injection h0 with h2
    rw [← h2]
  · rw [sun_synchronous_alt_ecc] at h0 ⊢
    split_ifs at h0 ⊢
    injection h0 with h2
    rw [← h2]

/-- C7: for every count `n ≥ 1`, if the shared Sun-synchronous solve
succeeds (hypothesis: the solve at true anomaly 0 returns `p0`), the
constellation generator yields exactly `n` predictors, each equal to
`p0` in `sma`, `ecc`, `inc`, `raan`, `argp` and `epoch`, with true
anomalies evenly spaced over `[0°, 360°)` in `n` steps
(`k·(360/n)` for `k = 0, ..., n−1`, the first at `0°`). -/
theorem claim_C7_constellation (mkEpoch : ℤ → ℝ → ℝ) (rl : ℝ → ℝ → ℝ)
    (alt_km ecc inc_deg : Option ℝ) (ltan_h : ℝ) (date : ℤ) (n : ℕ)
    (p0 : OrbitalElements) (_hn : 1 ≤ n)
    (h0 : J2Predictor.sun_synchronous mkEpoch rl alt_km ecc inc_deg ltan_h date 0 =
      Except.ok p0) :
    sun_sync_plane_constellation n mkEpoch rl alt_km ecc inc_deg ltan_h date =
      (List.range n).map (fun k : ℕ =>
        Except.ok { p0 with ta := 0 + (k : ℝ) * (360 / (n : ℝ)) }) := by
  unfold sun_sync_plane_constellation
  exact List.map_congr_left fun k _ =>
    sun_synchronous_ta_map mkEpoch rl alt_km ecc inc_deg ltan_h date _ p0 h0

theorem radians_pi : radians 180 = Real.pi := by
  unfold radians
  ring

theorem radians_zero : radians 0 = 0 := by
  unfold radians
  ring

theorem smaBase_0_180_pos : 0 < smaBase 0 180 := by
  unfold smaBase
  rw [radians_pi, Real.cos_pi]
  have h1 : 0 < 3 * R_E_KM ^ 2 * J2 * Real.sqrt MU_E :=
    mul_pos (mul_pos (mul_pos (by norm_num) (pow_pos R_E_KM_pos 2)) J2_pos)
      sqrt_MU_E_pos
  have h2 : 0 < 2 * OMEGA * ((1 : ℝ) - (0 : ℝ) ^ 2) ^ 2 := by
    have := OMEGA_pos
    norm_num
    linarith
  have : -(-1 : ℝ) * (3 * R_E_KM ^ 2 * J2 * Real.sqrt MU_E) =
        3 * R_E_KM ^ 2 * J2 * Real.sqrt MU_E := by ring
  rw [this]
  exact div_pos h1 h2

/-- The predictor returned by the concrete feasible Sun-synchronous solve
used by the witnesses: `ecc = 0` and `inc_deg = 180` supplied, solving
the semi-major axis, with the epoch and RAAN collaborators instantiated
by the zero functions. -/
noncomputable def P180 : OrbitalElements :=
  ⟨smaBase 0 180 ^ ((2 : ℝ) / 7), 0, 180, 0, 0, 0, 0⟩

theorem sun_synchronous_P180 :
    J2Predictor.sun_synchronous (fun _ _ => 0) (fun _ _ => 0)
      none (some 0) (some 180) 12 0 0 = Except.ok P180 := by
  rw [sun_synchronous_ecc_inc, if_neg (not_lt.mpr smaBase_0_180_pos.le),
    if_neg (by norm_num : ¬(1 : ℝ) ≤ 0)]
  rfl

theorem eccInnerArg_600_0_neg : eccInnerArg 600 0 < 0 := by
  unfold eccInnerArg
  rw [radians_zero, Real.cos_zero, mul_one]
  apply div_neg_of_neg_of_pos
  · have h1 : 0 < 3 * R_E_KM ^ 2 * J2 * Real.sqrt MU_E :=
      mul_pos (mul_pos (mul_pos (by norm_num) (pow_pos R_E_KM_pos 2)) J2_pos)
        sqrt_MU_E_pos
    linarith
  · have hs : (0 : ℝ) < R_E_KM + 600 := by
      have := R_E_KM_pos
      linarith
    exact mul_pos (mul_pos (by norm_num) OMEGA_pos) (Real.rpow_pos_of_pos hs _)

/-- C3 witness: at the concrete call supplying altitude 600 km and
inclination 0° (whose inner square-root argument is negative, a domain
violation), the solver returns `InvalidOrbitError`. -/
theorem claim_C3_witness :
    J2Predictor.sun_synchronous (fun _ _ => 0) (fun _ _ => 0)
      (some 600) none (some 0) 12 0 0 = Except.error SunSyncError.invalidOrbit := by
  exact claim_C3_invalid_orbit (fun _ _ => 0) (fun _ _ => 0)
    (some 600) none (some 0) 12 0 0 (Or.inl eccInnerArg_600_0_neg)

/-- C5 witness: the concrete solve with eccentricity 0 and inclination
180° supplied succeeds with a positive semi-major axis, and its nodal
regression rate equals `OMEGA`. -/
theorem claim_C5_witness : nodalRegressionRate P180 = OMEGA :=
  claim_C5_nodal_rate (fun _ _ => 0) (fun _ _ => 0) none (some 0) (some 180) 12 0 0
    P180 sun_synchronous_P180 (Real.rpow_pos_of_pos smaBase_0_180_pos _)
    (by norm_num [P180])

/-- C10 witness: the concrete successful solve returns a predictor whose
argument of perigee is 0. -/
theorem claim_C10_witness : P180.argp = 0 :=
  claim_C10_argp_zero (fun _ _ => 0) (fun _ _ => 0) none (some 0) (some 180) 12 0 0
    P180 sun_synchronous_P180

/-- C7 witness: the constellation of 4 satellites built from the concrete
feasible solve is the list of 4 predictors sharing all elements of
`P180` with true anomalies `0°, 90°, 180°, 270°`. -/
theorem claim_C7_witness :
    sun_sync_plane_constellation 4 (fun _ _ => 0) (fun _ _ => 0)
        none (some 0) (some 180) 12 0 =
      (List.range 4).map (fun k : ℕ =>
        Except.ok { P180 with ta := 0 + (k : ℝ) * (360 / ((4 : ℕ) : ℝ)) }) :=
  claim_C7_constellation (fun _ _ => 0) (fun _ _ => 0) none (some 0) (some 180) 12 0 4
    P180 (by norm_num) sun_synchronous_P180

end OrbitPredictor
